import Mathlib

/-!
# Verification of the tonic gRPC client dispatcher (`src/tonic/src/client/grpc.rs`)

Shallow embedding of the client-side dispatcher: the `Grpc` struct, its
configuration, the four call shapes (`unary`, `client_streaming`,
`server_streaming`, `streaming`), the response classifier
(`create_response`) and the request builder (`GrpcConfig::prepare_request`).

Rust panics (`expect`) are modelled by `Option` (with `none` for the panic);
fallible operations return `Except Status`.  Repository code that is not part
of the dispatcher source file (the compression helpers, `Status`
constructors, the `Streaming` body type) is modelled from the specification;
each such definition carries a doc comment saying so.
-/

deriving instance DecidableEq for Except

namespace Tonic

/-- gRPC status codes used by the dispatcher.  Modelled from the spec: the
terminal outcome carries a code; the repository's `Code` enum is outside the
dispatcher source, so only the codes the dispatcher mentions are included. -/
inductive Code where
  | ok
  | internal
  | unknown
  | unimplemented
  | permissionDenied
deriving DecidableEq

/-- Metadata maps are modelled as association lists of header name/value
pairs; `MetadataMap::merge` appends the other map's entries. -/
abbrev Metadata := List (String × String)

/-- Modelled from the spec: merging metadata appends the entries of the
second map after those of the first (`MetadataMap::merge`). -/
def Metadata.merge (a b : Metadata) : Metadata := a ++ b

/-- The terminal `Status` of a call: code, human-readable message and merged
metadata.  Modelled from the spec (the `Status` type lives outside the
dispatcher source file). -/
structure Status where
  code : Code
  message : String
  metadata : Metadata
deriving DecidableEq

/-- Modelled from the spec: `Status::internal` builds a status with the
internal code, the given message and empty metadata. -/
def Status.internal (msg : String) : Status :=
  ⟨Code.internal, msg, []⟩

/-- Transport errors are represented by their display message. -/
abbrev TransportError := String

/-- Modelled from the spec: any transport-level failure is mapped
generically (catch-all classification) into a `Status`
(`Status::from_error_generic`): unknown code, the error's message. -/
def Status.from_error_generic (e : TransportError) : Status :=
  ⟨Code.unknown, e, []⟩

/-- Compression encodings the build can enable.  Modelled from the spec:
the negotiation protocol deals in registered algorithm tokens. -/
inductive CompressionEncoding where
  | gzip
  | zstd
deriving DecidableEq

/-- The registered wire token of an encoding. -/
def CompressionEncoding.token : CompressionEncoding → String
  | .gzip => "gzip"
  | .zstd => "zstd"

/-- Modelled from the spec: the protocol error produced when the server
names a compression encoding the client never advertised. -/
def unsupportedEncodingStatus (s : String) : Status :=
  ⟨Code.unimplemented, String.append ("unsupported encoding ") s, []⟩

/-- Modelled from the spec: parse the compression-encoding header and
validate that the named encoding is a member of the accepted-inbound set
(`CompressionEncoding::from_encoding_header`).  An absent header or the
implicit identity encoding yields no encoding; an encoding outside the
accepted set fails with the unsupported-encoding protocol error. -/
def fromEncodingHeader (hdr : Option String) (accepted : List CompressionEncoding) :
    Except Status (Option CompressionEncoding) :=
  match hdr with
  | none => Except.ok none
  | some s =>
    if s = "identity" then Except.ok none
    else
      match accepted.find? (fun e => CompressionEncoding.token e = s) with
      | some e => Except.ok (some e)
      | none => Except.error (unsupportedEncodingStatus s)

/-- The response header block, as the classifier reads it: the
compression-encoding header, the optional terminal status fields
(code and message), and the remaining metadata entries. -/
structure HeaderMap where
  grpcEncoding : Option String
  grpcStatus : Option (Code × String)
  metadata : Metadata
deriving DecidableEq

/-- Modelled from the spec: `Status::from_header_map` detects a terminal
status carried directly in the header block (code, message). -/
def Status.from_header_map (h : HeaderMap) : Option Status :=
  h.grpcStatus.map (fun p => ⟨p.1, p.2, []⟩)

/-- A validated path-and-query component, stored as its raw string. -/
structure PathAndQuery where
  raw : String
deriving DecidableEq

/-- The path portion of a path-and-query: everything before the query
delimiter (`PathAndQuery::path`). -/
def PathAndQuery.path (p : PathAndQuery) : String :=
  String.mk (p.raw.data.takeWhile (fun c => c ≠ '?'))

/-- Modelled from the spec: a character admissible in a well-formed
path-and-query (printable ASCII, no fragment delimiter). -/
def validPnqChar (c : Char) : Bool :=
  Nat.ble 0x21 c.toNat && Nat.ble c.toNat 0x7e && (c ≠ '#')

/-- Modelled from the spec: re-validation of a string as a well-formed
path-and-query (`PathAndQuery::from_str` via `.parse()`): every character
must be admissible. -/
def parsePathAndQuery (s : String) : Option PathAndQuery :=
  if s.data.all validPnqChar then some ⟨s⟩ else none

/-- URI parts: scheme, authority and optional path-and-query, as
`Uri::into_parts` exposes them. -/
structure UriParts where
  scheme : Option String
  authority : Option String
  path_and_query : Option PathAndQuery
deriving DecidableEq

/-- `Uri::default()` is the root URI `/`. -/
def UriParts.defaultUri : UriParts :=
  ⟨none, none, some ⟨"/"⟩⟩

/-- HTTP request methods used by the dispatcher. -/
inductive Method where
  | POST
  | GET
deriving DecidableEq

/-- HTTP protocol versions used by the dispatcher. -/
inductive Version where
  | http11
  | http2
deriving DecidableEq

/-- The gRPC content-type marker set on every outbound request.  Modelled
from the spec: the protocol's content-type marker (`GRPC_CONTENT_TYPE`). -/
def GRPC_CONTENT_TYPE : String := "application/grpc"

/-- Modelled from the spec: the accept-encoding header value enumerates
every accepted inbound encoding and is omitted when the accepted set is
empty (`EnabledCompressionEncodings::into_accept_encoding_header_value`). -/
def intoAcceptEncodingHeaderValue (accepted : List CompressionEncoding) :
    Option String :=
  match accepted with
  | [] => none
  | _ => some (String.intercalate (",") (accepted.map CompressionEncoding.token))

/-- The outbound wire request produced by the request builder.  The
protocol headers the builder inserts are modelled as dedicated fields
(each `HeaderMap::insert` in the source targets a distinct fixed name). -/
structure HttpRequest where
  method : Method
  version : Version
  uri : UriParts
  metadata : Metadata
  te : Option String
  contentType : Option String
  grpcEncoding : Option String
  grpcAcceptEncoding : Option String
deriving DecidableEq

/-- The per-call dispatcher configuration (`GrpcConfig`). -/
structure GrpcConfig where
  origin : UriParts
  accept_compression_encodings : List CompressionEncoding
  send_compression_encodings : Option CompressionEncoding
  max_decoding_message_size : Option Nat
  max_encoding_message_size : Option Nat

/-- `GrpcConfig::prepare_request`: join the origin base path with the call
path, re-validating the concatenation, and set the protocol headers.  The
source's `expect("must form valid path_and_query")` panic is modelled by
returning `none`; the final `Uri::from_parts` assembly is asserted
successful by the source and modelled as such. -/
def GrpcConfig.prepare_request (cfg : GrpcConfig) (reqMetadata : Metadata)
    (path : PathAndQuery) : Option HttpRequest :=
  let pnqNew : Option PathAndQuery :=
    match cfg.origin.path_and_query with
    | some pnq =>
      if pnq.raw ≠ "/" then parsePathAndQuery (String.append pnq.path path.raw)
      else some path
    | none => some path
  match pnqNew with
  | none => none
  | some q =>
    some
      { method := Method.POST
        version := Version.http2
        uri := { scheme := cfg.origin.scheme, authority := cfg.origin.authority,
                 path_and_query := some q }
        metadata := reqMetadata
        te := some ("trailers")
        contentType := some (GRPC_CONTENT_TYPE)
        grpcEncoding := cfg.send_compression_encodings.map CompressionEncoding.token
        grpcAcceptEncoding := intoAcceptEncodingHeaderValue cfg.accept_compression_encodings }

/-- A request as the call shapes receive it: metadata plus the message
payload (a single message or an outbound sequence). -/
structure Request (M : Type) where
  metadata : Metadata
  message : M
deriving DecidableEq

/-- `Request::map`: transform the payload, keeping the metadata. -/
def Request.map (r : Request M) (f : M → N) : Request N :=
  ⟨r.metadata, f r.message⟩

/-- `tokio_stream::once`: the one-element sequence. -/
def tokioStreamOnce (m : M) : List M := [m]

/-- A response envelope: captured header metadata, the payload, and the
protocol extensions. -/
structure Response (M : Type) where
  metadata : Metadata
  message : M
  extensions : List String
deriving DecidableEq

/-- The decoded inbound message sequence (`Streaming`).  Modelled from the
spec: `Streaming::new_empty` is an already-completed, zero-item sequence;
`Streaming::new_response` is a live decoding sequence, represented by its
observable behaviour — the result of the first pull and the result of
reading the trailing metadata. -/
inductive StreamingBody (M : Type) where
  | empty
  | live (firstPull : Except Status (Option M))
      (trailersRes : Except Status (Option Metadata))
deriving DecidableEq

/-- `try_next` on the inbound sequence: the empty sequence is complete with
zero items; the live sequence yields its first pull result. -/
def StreamingBody.try_next : StreamingBody M → Except Status (Option M)
  | .empty => Except.ok none
  | .live firstPull _ => firstPull

/-- `trailers` on the inbound sequence: the empty sequence has no trailing
metadata; the live sequence yields its trailing-metadata read result. -/
def StreamingBody.trailers : StreamingBody M → Except Status (Option Metadata)
  | .empty => Except.ok none
  | .live _ trailersRes => trailersRes

/-- The raw inbound body, abstracted by the behaviour a live decoding
sequence built over it would exhibit. -/
structure ResponseBodyModel (M : Type) where
  firstPull : Except Status (Option M)
  trailersRes : Except Status (Option Metadata)
deriving DecidableEq

/-- The transport's HTTP response: header block, HTTP status code, body and
extensions. -/
structure HttpResponse (M : Type) where
  headers : HeaderMap
  status : Nat
  body : ResponseBodyModel M
  extensions : List String
deriving DecidableEq

/-- The gRPC client dispatcher: the inner transport service (its `call`
operation, which may fail with a transport error) and the per-call
configuration. -/
structure Grpc (M2 : Type) where
  call : HttpRequest → Except TransportError (HttpResponse M2)
  config : GrpcConfig

/-- `Grpc::create_response`, the response classifier: validate the
compression-encoding header against the accepted set, then detect a
trailers-only response (terminal status carried in the header block) — a
non-OK code is returned as an immediate error, an OK code yields an empty
completed sequence — and otherwise bind a live decoding sequence to the
body. -/
def Grpc.create_response (g : Grpc M2) (response : HttpResponse M2) :
    Except Status (Response (StreamingBody M2)) :=
  match fromEncodingHeader response.headers.grpcEncoding
      g.config.accept_compression_encodings with
  | Except.error st => Except.error st
  | Except.ok _ =>
    match Status.from_header_map response.headers with
    | some status =>
      if status.code ≠ Code.ok then Except.error status
      else Except.ok ⟨response.headers.metadata, StreamingBody.empty,
        response.extensions⟩
    | none =>
      Except.ok ⟨response.headers.metadata,
        StreamingBody.live response.body.firstPull response.body.trailersRes,
        response.extensions⟩

/-- `Grpc::streaming`, the core primitive: build the wire request, invoke
the transport's call operation (mapping any transport failure generically
into a `Status`), and classify the response.  The request-builder panic is
propagated as `none`. -/
def Grpc.streaming (g : Grpc M2) (request : Request S) (path : PathAndQuery) :
    Option (Except Status (Response (StreamingBody M2))) :=
  (g.config.prepare_request request.metadata path).map (fun httpReq =>
    match g.call httpReq with
    | Except.error e => Except.error (Status.from_error_generic e)
    | Except.ok resp => g.create_response resp)

/-- `Grpc::client_streaming`: delegate to `streaming`, pull exactly one
item (a failed pull merges the captured header metadata into the status; a
zero-item sequence is an internal error), then merge any trailing metadata
into the response's metadata. -/
def Grpc.client_streaming (g : Grpc M2) (request : Request S)
    (path : PathAndQuery) : Option (Except Status (Response M2)) :=
  (g.streaming request path).map (fun result =>
    match result with
    | Except.error st => Except.error st
    | Except.ok resp =>
      match resp.message.try_next with
      | Except.error status =>
        Except.error ⟨status.code, status.message,
          Metadata.merge status.metadata resp.metadata⟩
      | Except.ok none => Except.error (Status.internal ("Missing response message."))
      | Except.ok (some message) =>
        match resp.message.trailers with
        | Except.error e => Except.error e
        | Except.ok (some trailers) =>
          Except.ok ⟨Metadata.merge resp.metadata trailers, message,
            resp.extensions⟩
        | Except.ok none => Except.ok ⟨resp.metadata, message, resp.extensions⟩)

/-- `Grpc::unary`: wrap the single message into a one-element sequence and
delegate to `client_streaming`. -/
def Grpc.unary (g : Grpc M2) (request : Request M1) (path : PathAndQuery) :
    Option (Except Status (Response M2)) :=
  g.client_streaming (request.map tokioStreamOnce) path

/-- `Grpc::server_streaming`: wrap the single message into a one-element
sequence and delegate to `streaming`. -/
def Grpc.server_streaming (g : Grpc M2) (request : Request M1)
    (path : PathAndQuery) : Option (Except Status (Response (StreamingBody M2))) :=
  g.streaming (request.map tokioStreamOnce) path

/-! ## Concrete fixtures used by witnesses and counterexamples -/

/-- A dispatcher configuration with the default origin and no compression. -/
def cfgEx : GrpcConfig := ⟨UriParts.defaultUri, [], none, none, none⟩

/-- A call path following the `/{service}/{method}` pattern. -/
def pathEx : PathAndQuery := ⟨"/svc/Method"⟩

/-- The wire request `cfgEx.prepare_request [] pathEx` produces. -/
def httpReqEx : HttpRequest :=
  ⟨Method.POST, Version.http2, ⟨none, none, some ⟨"/svc/Method"⟩⟩, [],
    some ("trailers"), some (GRPC_CONTENT_TYPE), none, none⟩

/-- A trailers-only response with code OK carried in the header block. -/
def respTrailersOnlyOk : HttpResponse Nat :=
  ⟨⟨none, some (Code.ok, ""), []⟩, 200, ⟨Except.ok none, Except.ok none⟩, []⟩

/-- A dispatcher whose transport always answers with the trailers-only OK
response. -/
def gTrailersOnlyOk : Grpc Nat := ⟨fun _ => Except.ok respTrailersOnlyOk, cfgEx⟩

/-- A one-message outbound request with empty metadata. -/
def reqEx : Request (List Nat) := ⟨[], [0]⟩

/-- A trailers-only response with the non-OK code PermissionDenied carried
in the header block, together with a body holding a decodable frame. -/
def respPermissionDenied : HttpResponse Nat :=
  ⟨⟨none, some (Code.permissionDenied, "denied"), []⟩, 200,
    ⟨Except.ok (some 1), Except.ok none⟩, []⟩

/-- A dispatcher whose transport answers with `respPermissionDenied`. -/
def gPermissionDenied : Grpc Nat := ⟨fun _ => Except.ok respPermissionDenied, cfgEx⟩

/-- A response naming the gzip encoding while also carrying a terminal
status in the header block. -/
def respUnsupportedEncoding : HttpResponse Nat :=
  ⟨⟨some ("gzip"), some (Code.permissionDenied, "denied"), []⟩, 200,
    ⟨Except.ok (some 2), Except.ok none⟩, []⟩

/-- A dispatcher (empty accepted-inbound set) whose transport answers with
`respUnsupportedEncoding`. -/
def gUnsupportedEncoding : Grpc Nat :=
  ⟨fun _ => Except.ok respUnsupportedEncoding, cfgEx⟩

/-- A dispatcher whose transport's call operation always fails. -/
def gTransportError : Grpc Nat := ⟨fun _ => Except.error ("connection reset"), cfgEx⟩

/-- A configuration whose origin carries the non-root base path `/api`. -/
def cfgApi : GrpcConfig :=
  ⟨⟨some ("http"), some ("example.com"), some ⟨"/api"⟩⟩, [], none, none, none⟩

/-- A configuration whose origin carries the root base path `/`. -/
def cfgRoot : GrpcConfig :=
  ⟨⟨some ("http"), some ("example.com"), some ⟨"/"⟩⟩, [], none, none, none⟩

/-- A configuration whose origin base path cannot re-parse once
concatenated with a call path (it contains a space). -/
def cfgBadBase : GrpcConfig := ⟨⟨none, none, some ⟨"/a b"⟩⟩, [], none, none, none⟩

/-- A configuration with outbound gzip compression and an accepted-inbound
set of gzip and zstd. -/
def cfgFull : GrpcConfig :=
  ⟨⟨some ("http"), some ("example.com"), some ⟨"/"⟩⟩,
    [CompressionEncoding.gzip, CompressionEncoding.zstd],
    some CompressionEncoding.gzip, none, none⟩

/-- The wire request `cfgApi.prepare_request [] pathEx` produces. -/
def reqApiEx : HttpRequest :=
  ⟨Method.POST, Version.http2,
    ⟨some ("http"), some ("example.com"), some ⟨"/api/svc/Method"⟩⟩, [],
    some ("trailers"), some (GRPC_CONTENT_TYPE), none, none⟩

/-- The wire request `cfgRoot.prepare_request [] pathEx` produces. -/
def reqRootEx : HttpRequest :=
  ⟨Method.POST, Version.http2,
    ⟨some ("http"), some ("example.com"), some ⟨"/svc/Method"⟩⟩, [],
    some ("trailers"), some (GRPC_CONTENT_TYPE), none, none⟩

/-- The wire request `cfgFull.prepare_request [] pathEx` produces. -/
def reqFullEx : HttpRequest :=
  ⟨Method.POST, Version.http2,
    ⟨some ("http"), some ("example.com"), some ⟨"/svc/Method"⟩⟩, [],
    some ("trailers"), some (GRPC_CONTENT_TYPE), some ("gzip"),
    some ("gzip,zstd")⟩

/-- A full-stream response: no terminal status in the header block, one
decodable message, trailing metadata present. -/
def respLive : HttpResponse Nat :=
  ⟨⟨none, none, [("k", "v")]⟩, 200,
    ⟨Except.ok (some 7), Except.ok (some [("t", "w")])⟩, []⟩

/-- A dispatcher whose transport answers with `respLive`. -/
def gLive : Grpc Nat := ⟨fun _ => Except.ok respLive, cfgEx⟩

/-- A full-stream response whose first pull fails. -/
def respPullError : HttpResponse Nat :=
  ⟨⟨none, none, [("k", "v")]⟩, 200,
    ⟨Except.error ⟨Code.internal, "decode failed", []⟩, Except.ok none⟩, []⟩

/-- A dispatcher whose transport answers with `respPullError`. -/
def gPullError : Grpc Nat := ⟨fun _ => Except.ok respPullError, cfgEx⟩

/-- A full-stream response whose trailing-metadata read fails after one
message. -/
def respTrailersError : HttpResponse Nat :=
  ⟨⟨none, none, [("k", "v")]⟩, 200,
    ⟨Except.ok (some 7), Except.error ⟨Code.internal, "protocol error", []⟩⟩, []⟩

/-- A dispatcher whose transport answers with `respTrailersError`. -/
def gTrailersError : Grpc Nat := ⟨fun _ => Except.ok respTrailersError, cfgEx⟩

/-! ## Unfolding lemmas for the request builder -/

/-- With no origin path-and-query, the call path becomes the entire
path-and-query of the built request. -/
theorem prepare_request_none_case (cfg : GrpcConfig) (meta : Metadata)
    (c : PathAndQuery) (hpq : cfg.origin.path_and_query = none) :
    cfg.prepare_request meta c
      = some
          { method := Method.POST
            version := Version.http2
            uri := ⟨cfg.origin.scheme, cfg.origin.authority, some c⟩
            metadata := meta
            te := some ("trailers")
            contentType := some (GRPC_CONTENT_TYPE)
            grpcEncoding := cfg.send_compression_encodings.map CompressionEncoding.token
            grpcAcceptEncoding :=
              intoAcceptEncodingHeaderValue cfg.accept_compression_encodings } := by
  simp [GrpcConfig.prepare_request, hpq]

/-- With the root origin path-and-query `/`, the call path becomes the
entire path-and-query of the built request. -/
theorem prepare_request_root_case (cfg : GrpcConfig) (meta : Metadata)
    (c pnq : PathAndQuery) (hpq : cfg.origin.path_and_query = some pnq)
    (hr : pnq.raw = "/") :
    cfg.prepare_request meta c
      = some
          { method := Method.POST
            version := Version.http2
            uri := ⟨cfg.origin.scheme, cfg.origin.authority, some c⟩
            metadata := meta
            te := some ("trailers")
            contentType := some (GRPC_CONTENT_TYPE)
            grpcEncoding := cfg.send_compression_encodings.map CompressionEncoding.token
            grpcAcceptEncoding :=
              intoAcceptEncodingHeaderValue cfg.accept_compression_encodings } := by
  simp [GrpcConfig.prepare_request, hpq, hr]

/-- With a non-root origin path-and-query, the built request's
path-and-query is the re-parsed concatenation of the base path and the
call path. -/
theorem prepare_request_join_case (cfg : GrpcConfig) (meta : Metadata)
    (c pnq : PathAndQuery) (hpq : cfg.origin.path_and_query = some pnq)
    (hne : pnq.raw ≠ "/") :
    cfg.prepare_request meta c
      = (parsePathAndQuery (String.append pnq.path c.raw)).map (fun q =>
          { method := Method.POST
            version := Version.http2
            uri := ⟨cfg.origin.scheme, cfg.origin.authority, some q⟩
            metadata := meta
            te := some ("trailers")
            contentType := some (GRPC_CONTENT_TYPE)
            grpcEncoding := cfg.send_compression_encodings.map CompressionEncoding.token
            grpcAcceptEncoding :=
              intoAcceptEncodingHeaderValue cfg.accept_compression_encodings }) := by
  cases hp : parsePathAndQuery (String.append pnq.path c.raw) <;>
    simp [GrpcConfig.prepare_request, hpq, hne, hp]

/-- Every successfully built request has the record shape the builder
produces, for some re-validated path-and-query. -/
theorem prepare_request_shape (cfg : GrpcConfig) (meta : Metadata)
    (c : PathAndQuery) (req : HttpRequest)
    (hprep : cfg.prepare_request meta c = some req) :
    ∃ q, req
      = { method := Method.POST
          version := Version.http2
          uri := ⟨cfg.origin.scheme, cfg.origin.authority, some q⟩
          metadata := meta
          te := some ("trailers")
          contentType := some (GRPC_CONTENT_TYPE)
          grpcEncoding := cfg.send_compression_encodings.map CompressionEncoding.token
          grpcAcceptEncoding :=
            intoAcceptEncodingHeaderValue cfg.accept_compression_encodings } := by
  rcases hpq : cfg.origin.path_and_query with _ | pnq
  · rw [prepare_request_none_case cfg meta c hpq] at hprep
    exact ⟨c, (Option.some.inj hprep).symm⟩
  · by_cases hr : pnq.raw = "/"
    · rw [prepare_request_root_case cfg meta c pnq hpq hr] at hprep
      exact ⟨c, (Option.some.inj hprep).symm⟩
    · rw [prepare_request_join_case cfg meta c pnq hpq hr] at hprep
      cases hp : parsePathAndQuery (String.append pnq.path c.raw) with
      | none => rw [hp] at hprep; cases hprep
      | some q =>
        rw [hp, Option.map_some'] at hprep
        exact ⟨q, (Option.some.inj hprep).symm⟩

/-! ## Claim theorems -/

/-- C1: trailers-only detection: when the response's header block carries a
terminal status (and the compression-encoding header validates), a non-OK
code makes `streaming` return that Status as an immediate error, and an OK
code yields a response wrapping the already-completed zero-item sequence
(`StreamingBody.empty`, whose pull yields no item).  In both cases the
conclusion does not mention the body `b`, which is universally quantified:
no body frame is ever read or decoded. -/
theorem streaming_trailers_only (g : Grpc M2) (request : Request S)
    (path : PathAndQuery) (httpReq : HttpRequest) (h : HeaderMap) (sc : Nat)
    (b : ResponseBodyModel M2) (ext : List String) (c : Code) (msg : String)
    (hprep : g.config.prepare_request request.metadata path = some httpReq)
    (hcall : g.call httpReq = Except.ok ⟨h, sc, b, ext⟩)
    (hst : h.grpcStatus = some (c, msg))
    (henc : ∃ enc, fromEncodingHeader h.grpcEncoding
        g.config.accept_compression_encodings = Except.ok enc) :
    (c ≠ Code.ok → g.streaming request path = some (Except.error ⟨c, msg, []⟩))
    ∧ (c = Code.ok →
        g.streaming request path
            = some (Except.ok ⟨h.metadata, StreamingBody.empty, ext⟩)
          ∧ (StreamingBody.empty : StreamingBody M2).try_next = Except.ok none) := by
  obtain ⟨enc, henc⟩ := henc
  have hmain : g.streaming request path = some (g.create_response ⟨h, sc, b, ext⟩) := by
    simp [Grpc.streaming, hprep, hcall]
  constructor
  · intro hne
    rw [hmain]
    simp [Grpc.create_response, henc, Status.from_header_map, hst, hne]
  · intro heq
    subst heq
    refine ⟨?_, rfl⟩
    rw [hmain]
    simp [Grpc.create_response, henc, Status.from_header_map, hst]

/-- C1 witness: the PermissionDenied trailers-only response is returned as
an immediate error; the OK trailers-only response yields the empty
completed sequence. -/
theorem streaming_trailers_only_witness :
    gPermissionDenied.streaming reqEx pathEx
        = some (Except.error ⟨Code.permissionDenied, "denied", []⟩)
      ∧ gTrailersOnlyOk.streaming reqEx pathEx
        = some (Except.ok ⟨[], StreamingBody.empty, []⟩) :=
  ⟨(streaming_trailers_only gPermissionDenied reqEx pathEx httpReqEx
      ⟨none, some (Code.permissionDenied, "denied"), []⟩ 200
      ⟨Except.ok (some 1), Except.ok none⟩ [] Code.permissionDenied ("denied")
      rfl rfl rfl ⟨none, rfl⟩).1 (by decide),
    ((streaming_trailers_only gTrailersOnlyOk reqEx pathEx httpReqEx
      ⟨none, some (Code.ok, ""), []⟩ 200 ⟨Except.ok none, Except.ok none⟩ []
      Code.ok ("") rfl rfl rfl ⟨none, rfl⟩).2 rfl).1⟩

/-- C2: a response whose compression-encoding header names an encoding
outside the accepted-inbound set fails immediately with the
unsupported-encoding protocol error.  The header-block status fields and
the body are universally quantified and absent from the conclusion: the
validation takes precedence over a terminal status carried in the header
block, and no body frame is decoded. -/
theorem streaming_unsupported_encoding (g : Grpc M2) (request : Request S)
    (path : PathAndQuery) (httpReq : HttpRequest) (h : HeaderMap) (sc : Nat)
    (b : ResponseBodyModel M2) (ext : List String) (s : String)
    (hprep : g.config.prepare_request request.metadata path = some httpReq)
    (hcall : g.call httpReq = Except.ok ⟨h, sc, b, ext⟩)
    (hs : h.grpcEncoding = some s)
    (hid : s ≠ "identity")
    (hnot : ∀ e ∈ g.config.accept_compression_encodings,
        CompressionEncoding.token e ≠ s) :
    g.streaming request path
      = some (Except.error (unsupportedEncodingStatus s)) := by
  have hfind : g.config.accept_compression_encodings.find?
      (fun e => CompressionEncoding.token e = s) = none := by
    rw [List.find?_eq_none]
    intro e he
    simp [hnot e he]
  simp [Grpc.streaming, hprep, hcall, Grpc.create_response, fromEncodingHeader,
    hs, hid, hfind]

/-- C2 witness: a server declaring gzip against an empty accepted set
yields the unsupported-encoding error even though the header block also
carries a PermissionDenied terminal status. -/
theorem streaming_unsupported_encoding_witness :
    gUnsupportedEncoding.streaming reqEx pathEx
      = some (Except.error (unsupportedEncodingStatus ("gzip"))) :=
  streaming_unsupported_encoding gUnsupportedEncoding reqEx pathEx httpReqEx
    ⟨some ("gzip"), some (Code.permissionDenied, "denied"), []⟩ 200
    ⟨Except.ok (some 2), Except.ok none⟩ [] ("gzip") rfl rfl rfl (by decide)
    (by simp [gUnsupportedEncoding, cfgEx])

/-- C3 counterexample: at a concrete trailers-only, code-OK, zero-item
response, `client_streaming` produces the internal error whose message is
"Missing response message." — not the message "missing response message"
the claim states. -/
theorem client_streaming_missing_message_counterexample :
    gTrailersOnlyOk.client_streaming reqEx pathEx
        = some (Except.error ⟨Code.internal, "Missing response message.", []⟩)
      ∧ ("Missing response message." ≠ "missing response message") :=
  ⟨rfl, by decide⟩

/-- C3 (amended): a call through `client_streaming` whose underlying
response sequence completes successfully with zero messages fails with an
internal-code error whose message is "Missing response message.". -/
theorem client_streaming_missing_message (g : Grpc M2) (request : Request S)
    (path : PathAndQuery) (resp : Response (StreamingBody M2))
    (hstream : g.streaming request path = some (Except.ok resp))
    (hzero : resp.message.try_next = Except.ok none) :
    g.client_streaming request path
      = some (Except.error ⟨Code.internal, "Missing response message.", []⟩) := by
  unfold Grpc.client_streaming
  rw [hstream]
  simp [hzero, Status.internal]

/-- C3 witness: the amended claim at the concrete trailers-only OK
response. -/
theorem client_streaming_missing_message_witness :
    gTrailersOnlyOk.client_streaming reqEx pathEx
      = some (Except.error ⟨Code.internal, "Missing response message.", []⟩) :=
  client_streaming_missing_message gTrailersOnlyOk reqEx pathEx
    ⟨[], StreamingBody.empty, []⟩ rfl rfl

/-- C5: the call shapes are thin adapters over one primitive: `unary` is
exactly `client_streaming` on the one-element sequence containing the
message, and `server_streaming` is exactly `streaming` on that one-element
sequence. -/
theorem unary_server_streaming_delegate (g : Grpc M2) (request : Request M1)
    (path : PathAndQuery) :
    g.unary request path
        = g.client_streaming (request.map (fun m => [m])) path
      ∧ g.server_streaming request path
        = g.streaming (request.map (fun m => [m])) path :=
  ⟨rfl, rfl⟩

/-- C8: a failure of the transport's call operation inside `streaming` is
mapped generically (catch-all) into a Status and returned immediately as
the call's result. -/
theorem streaming_transport_error (g : Grpc M2) (request : Request S)
    (path : PathAndQuery) (httpReq : HttpRequest) (e : TransportError)
    (hprep : g.config.prepare_request request.metadata path = some httpReq)
    (hcall : g.call httpReq = Except.error e) :
    g.streaming request path
      = some (Except.error (Status.from_error_generic e)) := by
  simp [Grpc.streaming, hprep, hcall]

/-- C8 witness: a concrete transport failure surfaces as the generically
mapped status. -/
theorem streaming_transport_error_witness :
    gTransportError.streaming reqEx pathEx
      = some (Except.error (Status.from_error_generic ("connection reset"))) :=
  streaming_transport_error gTransportError reqEx pathEx httpReqEx
    ("connection reset") rfl rfl

/-- C4: path joining: with a present, non-root origin path-and-query, the
outbound path is the simple string concatenation of the origin base path
with the call path; with an absent or root (`/`) origin path-and-query,
the outbound path is exactly the call path. -/
theorem prepare_request_path_joining (cfg : GrpcConfig) (meta : Metadata)
    (c : PathAndQuery) (req : HttpRequest)
    (hprep : cfg.prepare_request meta c = some req) :
    (∀ pnq, cfg.origin.path_and_query = some pnq → pnq.raw ≠ "/" →
        req.uri.path_and_query = some ⟨String.append pnq.path c.raw⟩)
    ∧ (cfg.origin.path_and_query = none → req.uri.path_and_query = some c)
    ∧ (∀ pnq, cfg.origin.path_and_query = some pnq → pnq.raw = "/" →
        req.uri.path_and_query = some c) := by
  refine ⟨?_, ?_, ?_⟩
  · intro pnq hpq hne
    rw [prepare_request_join_case cfg meta c pnq hpq hne] at hprep
    cases hp : parsePathAndQuery (String.append pnq.path c.raw) with
    | none => rw [hp] at hprep; cases hprep
    | some q =>
      rw [hp, Option.map_some'] at hprep
      have hq : q = ⟨String.append pnq.path c.raw⟩ := by
        unfold parsePathAndQuery at hp
        split at hp
        · cases hp; rfl
        · cases hp
      rw [← Option.some.inj hprep, hq]
  · intro hpq
    rw [prepare_request_none_case cfg meta c hpq] at hprep
    rw [← Option.some.inj hprep]
  · intro pnq hpq hr
    rw [prepare_request_root_case cfg meta c pnq hpq hr] at hprep
    rw [← Option.some.inj hprep]

/-- C4 witness: base path `/api` with call path `/svc/Method` yields
`/api/svc/Method`; base path `/` with call path `/svc/Method` yields
`/svc/Method`. -/
theorem prepare_request_path_joining_witness :
    reqApiEx.uri.path_and_query = some ⟨"/api/svc/Method"⟩
    ∧ reqRootEx.uri.path_and_query = some ⟨"/svc/Method"⟩ :=
  ⟨(prepare_request_path_joining cfgApi [] pathEx reqApiEx rfl).1
      ⟨"/api"⟩ rfl (by decide),
    (prepare_request_path_joining cfgRoot [] pathEx reqRootEx rfl).2.2
      ⟨"/"⟩ rfl rfl⟩

/-- C7: every prepared outbound request carries method POST, protocol
version HTTP/2, the TE header with value `trailers`, the gRPC content-type
marker, the compression-encoding header exactly when an outbound encoding
is configured, and the accept-encoding header enumerating every accepted
inbound encoding, omitted when the accepted set is empty. -/
theorem prepare_request_protocol_fields (cfg : GrpcConfig) (meta : Metadata)
    (c : PathAndQuery) (req : HttpRequest)
    (hprep : cfg.prepare_request meta c = some req) :
    req.method = Method.POST
    ∧ req.version = Version.http2
    ∧ req.te = some ("trailers")
    ∧ req.contentType = some (GRPC_CONTENT_TYPE)
    ∧ req.grpcEncoding = cfg.send_compression_encodings.map CompressionEncoding.token
    ∧ (req.grpcEncoding.isSome ↔ cfg.send_compression_encodings.isSome)
    ∧ req.grpcAcceptEncoding
        = intoAcceptEncodingHeaderValue cfg.accept_compression_encodings
    ∧ (cfg.accept_compression_encodings = [] → req.grpcAcceptEncoding = none)
    ∧ (cfg.accept_compression_encodings ≠ [] →
        req.grpcAcceptEncoding
          = some (String.intercalate (",")
              (cfg.accept_compression_encodings.map CompressionEncoding.token))) := by
  obtain ⟨q, hq⟩ := prepare_request_shape cfg meta c req hprep
  subst hq
  refine ⟨rfl, rfl, rfl, rfl, rfl, ?_, rfl, ?_, ?_⟩
  · cases cfg.send_compression_encodings <;> simp
  · intro ha
    simp [intoAcceptEncodingHeaderValue, ha]
  · intro ha
    cases hacc : cfg.accept_compression_encodings with
    | nil => exact absurd hacc ha
    | cons x xs => simp [intoAcceptEncodingHeaderValue, hacc]

/-- C7 witness: with outbound gzip and accepted set {gzip, zstd} the built
request carries the protocol headers, the encoding header `gzip` and the
accept-encoding header `gzip,zstd`. -/
theorem prepare_request_protocol_fields_witness :
    reqFullEx.method = Method.POST
    ∧ reqFullEx.version = Version.http2
    ∧ reqFullEx.te = some ("trailers")
    ∧ reqFullEx.contentType = some ("application/grpc")
    ∧ reqFullEx.grpcEncoding = some ("gzip")
    ∧ reqFullEx.grpcAcceptEncoding = some ("gzip,zstd") := by
  have h := prepare_request_protocol_fields cfgFull [] pathEx reqFullEx rfl
  exact ⟨h.1, h.2.1, h.2.2.1, h.2.2.2.1, by simpa using h.2.2.2.2.1,
    by simpa using h.2.2.2.2.2.2.1⟩

/-- C9: a concatenated base path and call path that fails to re-parse makes
the request builder fail at assertion level — modelled by `none`, a channel
distinct from any runtime `Status` — and under the precondition that the
concatenation parses, `prepare_request` is total (returns a request). -/
theorem prepare_request_panic (cfg : GrpcConfig) (meta : Metadata)
    (c : PathAndQuery) :
    (∀ pnq, cfg.origin.path_and_query = some pnq → pnq.raw ≠ "/" →
        parsePathAndQuery (String.append pnq.path c.raw) = none →
        cfg.prepare_request meta c = none)
    ∧ ((∀ pnq, cfg.origin.path_and_query = some pnq → pnq.raw ≠ "/" →
          (parsePathAndQuery (String.append pnq.path c.raw)).isSome) →
        (cfg.prepare_request meta c).isSome) := by
  constructor
  · intro pnq hpq hne hparse
    rw [prepare_request_join_case cfg meta c pnq hpq hne, hparse]
    rfl
  · intro hpre
    rcases hpq : cfg.origin.path_and_query with _ | pnq
    · rw [prepare_request_none_case cfg meta c hpq]; rfl
    · by_cases hr : pnq.raw = "/"
      · rw [prepare_request_root_case cfg meta c pnq hpq hr]; rfl
      · rw [prepare_request_join_case cfg meta c pnq hpq hr]
        have hps := hpre pnq hpq hr
        cases hp : parsePathAndQuery (String.append pnq.path c.raw) with
        | none => rw [hp] at hps; simp at hps
        | some q => rfl

/-- C9 witness: the base path `/a b` makes the concatenation unparsable and
the builder fails at assertion level; the base path `/api` satisfies the
precondition and the builder is total. -/
theorem prepare_request_panic_witness :
    cfgBadBase.prepare_request [] pathEx = none
    ∧ (cfgApi.prepare_request [] pathEx).isSome :=
  ⟨(prepare_request_panic cfgBadBase [] pathEx).1 ⟨"/a b"⟩ rfl (by decide)
      (by decide),
    (prepare_request_panic cfgApi [] pathEx).2 (by
      intro pnq hpq hne
      rw [← Option.some.inj hpq]
      decide)⟩

/-- C6: in `client_streaming`, a failed first pull merges the captured
header metadata into the returned status before it propagates; after the
one message is obtained, trailing metadata when present is merged into the
response's metadata, and absent trailing metadata is not an error. -/
theorem client_streaming_metadata_handling (g : Grpc M2) (request : Request S)
    (path : PathAndQuery) (resp : Response (StreamingBody M2))
    (hstream : g.streaming request path = some (Except.ok resp)) :
    (∀ st : Status, resp.message.try_next = Except.error st →
        g.client_streaming request path
          = some (Except.error ⟨st.code, st.message,
              Metadata.merge st.metadata resp.metadata⟩))
    ∧ (∀ m : M2, ∀ tr : Metadata, resp.message.try_next = Except.ok (some m) →
        resp.message.trailers = Except.ok (some tr) →
        g.client_streaming request path
          = some (Except.ok ⟨Metadata.merge resp.metadata tr, m,
              resp.extensions⟩))
    ∧ (∀ m : M2, resp.message.try_next = Except.ok (some m) →
        resp.message.trailers = Except.ok none →
        g.client_streaming request path
          = some (Except.ok ⟨resp.metadata, m, resp.extensions⟩)) := by
  refine ⟨?_, ?_, ?_⟩
  · intro st hst
    unfold Grpc.client_streaming
    rw [hstream]
    simp [hst]
  · intro m tr hm htr
    unfold Grpc.client_streaming
    rw [hstream]
    simp [hm, htr]
  · intro m hm htr
    unfold Grpc.client_streaming
    rw [hstream]
    simp [hm, htr]

/-- C6 witness: a failed first pull carries the captured header metadata in
the returned status; a successful pull merges the trailing metadata into
the response's metadata. -/
theorem client_streaming_metadata_handling_witness :
    gPullError.client_streaming reqEx pathEx
        = some (Except.error ⟨Code.internal, "decode failed", [("k", "v")]⟩)
      ∧ gLive.client_streaming reqEx pathEx
        = some (Except.ok ⟨[("k", "v"), ("t", "w")], 7, []⟩) :=
  ⟨by
    have h := (client_streaming_metadata_handling gPullError reqEx pathEx
        ⟨[("k", "v")], StreamingBody.live
          (Except.error ⟨Code.internal, "decode failed", []⟩)
          (Except.ok none), []⟩ rfl).1
      ⟨Code.internal, "decode failed", []⟩ rfl
    simpa [Metadata.merge] using h,
    by
    have h := (client_streaming_metadata_handling gLive reqEx pathEx
        ⟨[("k", "v")], StreamingBody.live (Except.ok (some 7))
          (Except.ok (some [("t", "w")])), []⟩ rfl).2.1
      7 [("t", "w")] rfl rfl
    simpa [Metadata.merge] using h⟩

/-- C10: a failure of the trailing-metadata read after the one response
message propagates as the call's failure exactly as produced — the
captured header metadata is not merged into it. -/
theorem client_streaming_trailers_error_not_merged (g : Grpc M2)
    (request : Request S) (path : PathAndQuery)
    (resp : Response (StreamingBody M2)) (m : M2) (e : Status)
    (hstream : g.streaming request path = some (Except.ok resp))
    (hm : resp.message.try_next = Except.ok (some m))
    (ht : resp.message.trailers = Except.error e) :
    g.client_streaming request path = some (Except.error e) := by
  unfold Grpc.client_streaming
  rw [hstream]
  simp [hm, ht]

/-- C10 witness: although the captured header metadata is nonempty, the
trailing-metadata read failure propagates with its own (empty) metadata
untouched. -/
theorem client_streaming_trailers_error_not_merged_witness :
    gTrailersError.client_streaming reqEx pathEx
      = some (Except.error ⟨Code.internal, "protocol error", []⟩) :=
  client_streaming_trailers_error_not_merged gTrailersError reqEx pathEx
    ⟨[("k", "v")], StreamingBody.live (Except.ok (some 7))
      (Except.error ⟨Code.internal, "protocol error", []⟩), []⟩ 7
    ⟨Code.internal, "protocol error", []⟩ rfl rfl rfl

end Tonic
